import Mathlib

/-!
Shallow embedding of the cart microservice's request-handling core
(`src/controllers/cartController.ts`, class `CartController`).

Modelling conventions:
* JavaScript primitive values that flow into identity comparisons are
  modelled by `JSPrim` (an integer or a string); JavaScript strict
  equality (`===` / `!==`) between such values is structural equality,
  and a number is never strictly equal to a string.
* `req.user` (set by the auth middleware) is `Option JSPrim` for the id:
  `none` models an absent / unauthenticated actor, in which case
  `req.user?.id` evaluates to `undefined`.
* Each controller method is a pure function taking the request fields it
  reads plus, for every upstream HTTP call its body can issue, the
  result the upstream would answer with (`Except JsErr _`).  It returns
  the HTTP response written through `res` together with the list of
  upstream calls actually issued, in order.  The call list makes the
  "no upstream call happens" parts of the specification provable.
* JavaScript numbers appear at two levels.  Where only comparisons and
  control flow depend on them (ids, quantities, stock counts) they are
  `Int`/`Rat`, which agrees with binary64 on such integral values.  The
  total computed by `getCartTotal`, whose numerical behaviour is itself
  under specification, is additionally modelled faithfully as IEEE-754
  binary64 arithmetic: `Dy` represents a finite double exactly as a
  dyadic rational, and `fpAdd`/`fpMul` round the exact result to
  nearest, ties to even, as the hardware does (`getCartTotalF`).
* `a || b` on JavaScript values is modelled by `jsOr*` helpers that
  treat `0`, `""` and `undefined` as falsy, exactly as `||` does.
-/

set_option maxRecDepth 16384

namespace BreweryCart

/-- A JavaScript primitive value used in identity comparisons: either a
number (the service only meets integral ids) or a string. -/
inductive JSPrim where
  | num (n : Int)
  | str (s : String)
  deriving DecidableEq, Repr

/-- JavaScript `x.toString()` on a `JSPrim`. -/
def jsToString : JSPrim → String
  | JSPrim.num n => toString n
  | JSPrim.str s => s

/-- JavaScript `parseInt(x, 10)`: a number parses to its integral value
(ids are integral here), a string of digits to the integer it spells,
anything else to `NaN` (`none`). -/
def parseIntJS : JSPrim → Option Int
  | JSPrim.num n => some n
  | JSPrim.str s => s.toInt?

/-- JavaScript strict equality `u?.id === s` between an optional actor id
and a string: true only when the actor is present and its id is that very
string.  A numeric id, or an absent actor (`undefined`), is never
strictly equal to a string. -/
def strictEqIdStr (u : Option JSPrim) (s : String) : Bool :=
  match u with
  | some (JSPrim.str t) => t == s
  | _ => false

/-- The `error.response` object of a failed axios call: optional HTTP
status, optional `data.message`, optional `data.errors`. -/
structure UpErrResponse where
  status : Option Nat
  dataMessage : Option String
  dataErrors : Option String
  deriving DecidableEq, Repr

/-- A failed axios call: an optional `response` (absent on transport
failures) plus the optional raw `error.message` description. -/
structure JsErr where
  response : Option UpErrResponse
  message : Option String
  deriving DecidableEq, Repr

/-- JavaScript `x || d` for an optional number, where `0` is falsy. -/
def jsOrNat (o : Option Nat) (d : Nat) : Nat :=
  match o with
  | some s => if s = 0 then d else s
  | none => d

/-- JavaScript `x || d` for an optional string, where `""` is falsy. -/
def jsOrStr (o : Option String) (d : String) : String :=
  match o with
  | some s => if s = "" then d else s
  | none => d

/-- JavaScript `a || b` where both sides may be `undefined` and `""` is
falsy. -/
def jsOr (a b : Option String) : Option String :=
  match a with
  | some s => if s = "" then b else some s
  | none => b

/-- A finite IEEE-754 binary64 value, represented exactly as a dyadic
rational `m * 2^e`.  The representation is not canonical; `Dy.veq`
compares by value.  Overflow and subnormals are outside the range this
service's amounts reach and are not modelled. -/
structure Dy where
  m : Int
  e : Int
  deriving DecidableEq, Repr

/-- Value equality of two dyadic rationals: `m₁·2^e₁ = m₂·2^e₂`,
decided by cross-scaling to the smaller exponent. -/
def Dy.veq (x y : Dy) : Bool :=
  if y.e ≤ x.e then x.m * 2 ^ (x.e - y.e).toNat == y.m
  else x.m == y.m * 2 ^ (y.e - x.e).toNat

/-- Is `b * 2^e ≤ a`, for an integer exponent `e`? -/
def le2 (b : Nat) (e : Int) (a : Nat) : Bool :=
  if 0 ≤ e then b * 2 ^ e.toNat ≤ a else b ≤ a * 2 ^ (-e).toNat

/-- Binary logarithm by structural recursion on explicit fuel, so that
it reduces inside the kernel (`Nat.log2` is well-founded recursion and
does not); 5000 bits of fuel covers every magnitude binary64 arithmetic
can produce. -/
def log2Go : Nat → Nat → Nat
  | 0, _ => 0
  | fuel + 1, n => if 2 ≤ n then log2Go fuel (n / 2) + 1 else 0

/-- `⌊log₂ n⌋` for positive `n` (and 0 at 0). -/
def natLog2 (n : Nat) : Nat := log2Go 5000 n

/-- `⌊log₂ (a/b)⌋` for positive naturals `a`, `b`. -/
def flog2Q (a b : Nat) : Int :=
  let e : Int := (natLog2 a : Int) - (natLog2 b : Int)
  if le2 b e a then e else e - 1

/-- Round the rational `num / den` (`den > 0`) to the nearest binary64
value, ties to even: scale so the significand lands in `[2^52, 2^53)`,
divide, and round the remainder. -/
def roundQ (num : Int) (den : Nat) : Dy :=
  if num = 0 then ⟨0, 0⟩ else
  let a := num.natAbs
  let e := flog2Q a den
  let sh : Int := 52 - e
  let p := if 0 ≤ sh then a * 2 ^ sh.toNat else a
  let q := if 0 ≤ sh then den else den * 2 ^ (-sh).toNat
  let quot := p / q
  let rem := p % q
  let mAbs := if q < 2 * rem then quot + 1
    else if 2 * rem < q then quot
    else if quot % 2 = 0 then quot else quot + 1
  ⟨if num < 0 then -(mAbs : Int) else (mAbs : Int), -sh⟩

/-- The binary64 value of the decimal literal `n / 10^k` (how a JSON
price like `5.99` enters the JavaScript runtime). -/
def dyOfDecimal (n : Int) (k : Nat) : Dy := roundQ n (10 ^ k)

/-- Round an exact dyadic rational to the nearest binary64 value (the
rounding step of every double operation); rounding commutes with the
power-of-two scale `e`. -/
def roundDy (x : Dy) : Dy :=
  let r := roundQ x.m 1
  ⟨r.m, r.e + x.e⟩

/-- The exact (unrounded) sum of two dyadic rationals, on the smaller
exponent. -/
def dyAddExact (x y : Dy) : Dy :=
  if y.e ≤ x.e then ⟨x.m * 2 ^ (x.e - y.e).toNat + y.m, y.e⟩
  else ⟨x.m + y.m * 2 ^ (y.e - x.e).toNat, x.e⟩

/-- IEEE-754 binary64 addition: exact sum, then one rounding. -/
def fpAdd (x y : Dy) : Dy := roundDy (dyAddExact x y)

/-- IEEE-754 binary64 multiplication: exact product, then one
rounding. -/
def fpMul (x y : Dy) : Dy := roundDy ⟨x.m * y.m, x.e + y.e⟩

/-- The binary64 value of an integer (a JavaScript integral number such
as a quantity). -/
def fpOfInt (n : Int) : Dy := roundQ n 1

/-- The JSON bodies the controller writes through `res.json`.
`totalVal` carries the total under the idealized exact-number reading;
`totalValF` carries it under the binary64 model used for the numerical
claim. -/
inductive RespBody (δ : Type) where
  | errorsList (es : List String)
  | message (m : String)
  | messageError (m : String) (e : Option String)
  | payload (d : δ)
  | totalVal (t : Rat)
  | totalValF (t : Dy)
  deriving DecidableEq, Repr

/-- An HTTP response written by the controller: status code plus JSON
body.  `δ` is the type of upstream payloads passed through verbatim. -/
structure Resp (δ : Type) where
  status : Nat
  body : RespBody δ
  deriving DecidableEq, Repr

/-- HTTP method of an upstream call. -/
inductive UpMethod where
  | get
  | post
  | put
  | delete
  deriving DecidableEq, Repr

/-- A mutating method (the cart-changing calls are POST/PUT/DELETE). -/
def UpMethod.isMutating : UpMethod → Bool
  | UpMethod.get => false
  | _ => true

/-- One upstream HTTP call as the controller issues it: method, path
under the brewery API base URL, forwarded JSON body (for POST/PUT), and
the `Authorization` header attached to the call. -/
structure CallRec (β : Type) where
  method : UpMethod
  path : String
  reqBody : Option β
  auth : Option String
  deriving DecidableEq, Repr

/-- The uniform `catch` block every controller method ends with:
`res.status(error.response?.status || 500).json({ message:
error.response?.data?.message || dflt, error:
error.response?.data?.errors || error.message })`. -/
def errResp (δ : Type) (e : JsErr) (dflt : String) : Resp δ :=
  ⟨jsOrNat (e.response.bind UpErrResponse.status) 500,
   RespBody.messageError
     (jsOrStr (e.response.bind UpErrResponse.dataMessage) dflt)
     (jsOr (e.response.bind UpErrResponse.dataErrors) e.message)⟩

/-- The body of an add-to-cart request:
`{ user_id, inventory_id, quantity }`, forwarded verbatim to the
upstream on success. -/
structure AddBody where
  user_id : JSPrim
  inventory_id : JSPrim
  quantity : Int
  deriving DecidableEq, Repr

/-- The body of an update-cart request: `{ quantity }`. -/
structure UpdBody where
  quantity : Int
  deriving DecidableEq, Repr

/-- An upstream inventory record: `{ stockQuantity, price }`. -/
structure Inventory where
  stockQuantity : Int
  price : Rat
  deriving DecidableEq, Repr

/-- An upstream cart item as fetched by update/remove:
`{ user_id, inventory_id }` are the fields the controller reads. -/
structure CartItem where
  user_id : JSPrim
  inventory_id : JSPrim
  deriving DecidableEq, Repr

/-- An entry of the cart list fetched by `getCartTotal`:
`{ inventory_id, quantity }` are the fields the loop reads. -/
structure CartEntry where
  inventory_id : JSPrim
  quantity : Int
  deriving DecidableEq, Repr

/-- The fixed 403 response `res.status(403).json({ message:
"Unauthorized" })`. -/
def unauthorized (δ : Type) : Resp δ := ⟨403, RespBody.message "Unauthorized"⟩

/-- `CartController.addToCart`: validation result check, ownership gate
`req.user?.id !== req.body.user_id.toString()`, inventory fetch, stock
gate, then the mutating POST `/api/cart/add` with the original body.
`invRes` / `postRes` are the upstream's answers to the two calls, were
they issued; the returned list records the calls actually made. -/
def addToCart (δ : Type) (errors : List String) (user : Option JSPrim)
    (body : AddBody) (invRes : Except JsErr Inventory)
    (postRes : Except JsErr δ) : Resp δ × List (CallRec AddBody) :=
  if !errors.isEmpty then
    (⟨400, RespBody.errorsList errors⟩, [])
  else if !(strictEqIdStr user (jsToString body.user_id)) then
    (unauthorized δ, [])
  else
    let invCall : CallRec AddBody :=
      ⟨UpMethod.get, "/api/inventory/" ++ jsToString body.inventory_id,
       none, none⟩
    match invRes with
    | Except.error e => (errResp δ e "Error adding to cart", [invCall])
    | Except.ok inv =>
      if inv.stockQuantity < body.quantity then
        (⟨400, RespBody.message "Insufficient stock"⟩, [invCall])
      else
        let postCall : CallRec AddBody :=
          ⟨UpMethod.post, "/api/cart/add", some body, none⟩
        match postRes with
        | Except.error e =>
            (errResp δ e "Error adding to cart", [invCall, postCall])
        | Except.ok d =>
            (⟨201, RespBody.payload d⟩, [invCall, postCall])

/-- The authorization rule the specification states for add-to-cart,
`actor.id == parseInt(body.user_id)`: kept as a separate, clearly named
definition so it can be compared with the gate `addToCart` actually
implements. -/
def claimedAddGate (u : Option JSPrim) (uid : JSPrim) : Bool :=
  match u, parseIntJS uid with
  | some (JSPrim.num n), some m => n == m
  | _, _ => false

/-- The authorization rule the specification states for the operations
whose owner is a path parameter or a fetched item's field,
`actor.id.toString() == owner`: kept as a separate, clearly named
definition so it can be compared with the strict comparison the code
performs. -/
def claimedToStringGate (u : Option JSPrim) (s : String) : Bool :=
  match u with
  | some p => jsToString p == s
  | none => false

/-- Does a response body carry a `message` field? -/
def RespBody.hasMessageField {δ : Type} : RespBody δ → Bool
  | RespBody.message _ => true
  | RespBody.messageError _ _ => true
  | _ => false

/-- `CartController.getCart`: ownership gate
`req.user?.id !== req.params.user_id`, then GET `/api/cart/:user_id`
returned verbatim with 200. -/
def getCart (δ : Type) (user : Option JSPrim) (pathUserId : String)
    (cartRes : Except JsErr δ) : Resp δ × List (CallRec Unit) :=
  if !(strictEqIdStr user pathUserId) then
    (unauthorized δ, [])
  else
    let cartCall : CallRec Unit :=
      ⟨UpMethod.get, "/api/cart/" ++ pathUserId, none, none⟩
    match cartRes with
    | Except.error e => (errResp δ e "Error getting cart", [cartCall])
    | Except.ok d => (⟨200, RespBody.payload d⟩, [cartCall])

/-- `CartController.updateCart`: validation result check, then GET
`/api/cart/item/:id`, ownership gate
`req.user?.id !== cartItemResponse.data.user_id.toString()`, inventory
fetch, stock gate, then the mutating PUT `/api/cart/update/:id` with the
request body. -/
def updateCart (δ : Type) (errors : List String) (user : Option JSPrim)
    (pathId : String) (body : UpdBody) (itemRes : Except JsErr CartItem)
    (invRes : Except JsErr Inventory) (putRes : Except JsErr δ) :
    Resp δ × List (CallRec UpdBody) :=
  if !errors.isEmpty then
    (⟨400, RespBody.errorsList errors⟩, [])
  else
    let itemCall : CallRec UpdBody :=
      ⟨UpMethod.get, "/api/cart/item/" ++ pathId, none, none⟩
    match itemRes with
    | Except.error e => (errResp δ e "Error updating cart", [itemCall])
    | Except.ok item =>
      if !(strictEqIdStr user (jsToString item.user_id)) then
        (unauthorized δ, [itemCall])
      else
        let invCall : CallRec UpdBody :=
          ⟨UpMethod.get, "/api/inventory/" ++ jsToString item.inventory_id,
           none, none⟩
        match invRes with
        | Except.error e =>
            (errResp δ e "Error updating cart", [itemCall, invCall])
        | Except.ok inv =>
          if inv.stockQuantity < body.quantity then
            (⟨400, RespBody.message "Insufficient stock"⟩,
             [itemCall, invCall])
          else
            let putCall : CallRec UpdBody :=
              ⟨UpMethod.put, "/api/cart/update/" ++ pathId, some body, none⟩
            match putRes with
            | Except.error e =>
                (errResp δ e "Error updating cart",
                 [itemCall, invCall, putCall])
            | Except.ok d =>
                (⟨200, RespBody.payload d⟩, [itemCall, invCall, putCall])

/-- `CartController.removeFromCart`: GET `/api/cart/item/:id`, ownership
gate `req.user?.id !== cartItemResponse.data.user_id.toString()`, then
the mutating DELETE `/api/cart/remove/:id` returned verbatim with
200. -/
def removeFromCart (δ : Type) (user : Option JSPrim) (pathId : String)
    (itemRes : Except JsErr CartItem) (delRes : Except JsErr δ) :
    Resp δ × List (CallRec Unit) :=
  let itemCall : CallRec Unit :=
    ⟨UpMethod.get, "/api/cart/item/" ++ pathId, none, none⟩
  match itemRes with
  | Except.error e => (errResp δ e "Error removing from cart", [itemCall])
  | Except.ok item =>
    if !(strictEqIdStr user (jsToString item.user_id)) then
      (unauthorized δ, [itemCall])
    else
      let delCall : CallRec Unit :=
        ⟨UpMethod.delete, "/api/cart/remove/" ++ pathId, none, none⟩
      match delRes with
      | Except.error e =>
          (errResp δ e "Error removing from cart", [itemCall, delCall])
      | Except.ok d =>
          (⟨200, RespBody.payload d⟩, [itemCall, delCall])

/-- `CartController.clearCart`: ownership gate
`req.user?.id !== req.params.user_id`, then the mutating DELETE
`/api/cart/clear/:user_id`; on success the fixed body
`{ message: "Cart cleared successfully" }` with 200, whatever the
upstream returned. -/
def clearCart (δ : Type) (user : Option JSPrim) (pathUserId : String)
    (delRes : Except JsErr δ) : Resp δ × List (CallRec Unit) :=
  if !(strictEqIdStr user pathUserId) then
    (unauthorized δ, [])
  else
    let delCall : CallRec Unit :=
      ⟨UpMethod.delete, "/api/cart/clear/" ++ pathUserId, none, none⟩
    match delRes with
    | Except.error e => (errResp δ e "Error clearing cart", [delCall])
    | Except.ok _ =>
        (⟨200, RespBody.message "Cart cleared successfully"⟩, [delCall])

/-- The `for (const item of cartItems)` loop of `getCartTotal`: fetch
each item's inventory record in encounter order, accumulating
`price * quantity` into the running total; the first failed fetch
aborts the loop (the exception reaches the `catch`).  Returns the loop's
outcome and the inventory calls issued. -/
def totalLoop (inv : JSPrim → Except JsErr Inventory) :
    List CartEntry → Rat → Except JsErr Rat × List (CallRec Unit)
  | [], acc => (Except.ok acc, [])
  | item :: rest, acc =>
    let invCall : CallRec Unit :=
      ⟨UpMethod.get, "/api/inventory/" ++ jsToString item.inventory_id,
       none, none⟩
    match inv item.inventory_id with
    | Except.error e => (Except.error e, [invCall])
    | Except.ok r =>
      let next := totalLoop inv rest (acc + r.price * item.quantity)
      (next.1, invCall :: next.2)

/-- `CartController.getCartTotal`: ownership gate
`req.user?.id !== req.params.user_id`, GET `/api/cart/:user_id`, then the
sequential inventory-fetch loop accumulating `price * quantity`; on
success `{ total }` with 200. -/
def getCartTotal (δ : Type) (user : Option JSPrim) (pathUserId : String)
    (cartRes : Except JsErr (List CartEntry))
    (inv : JSPrim → Except JsErr Inventory) :
    Resp δ × List (CallRec Unit) :=
  if !(strictEqIdStr user pathUserId) then
    (unauthorized δ, [])
  else
    let cartCall : CallRec Unit :=
      ⟨UpMethod.get, "/api/cart/" ++ pathUserId, none, none⟩
    match cartRes with
    | Except.error e =>
        (errResp δ e "Error calculating cart total", [cartCall])
    | Except.ok items =>
      match totalLoop inv items 0 with
      | (Except.error e, calls) =>
          (errResp δ e "Error calculating cart total", cartCall :: calls)
      | (Except.ok t, calls) =>
          (⟨200, RespBody.totalVal t⟩, cartCall :: calls)

/-- A two-product inventory table for concrete runs: product 1 costs
5.99, anything else 3.99, ten units in stock. -/
def demoInventory : JSPrim → Inventory :=
  fun p => if p == JSPrim.num 1 then ⟨10, 599/100⟩ else ⟨10, 399/100⟩

/-- An always-succeeding upstream inventory oracle answering from
`demoInventory`. -/
def demoOracle : JSPrim → Except JsErr Inventory :=
  fun p => Except.ok (demoInventory p)

/-- An upstream inventory record under the binary64 model: the price is
the double the JSON price parsed to. -/
structure InventoryF where
  stockQuantity : Int
  price : Dy
  deriving DecidableEq, Repr

/-- The `for (const item of cartItems)` loop of `getCartTotal` under
binary64 semantics: `total += price * quantity` multiplies and then
adds, each with one rounding; the first failed fetch aborts the loop. -/
def totalLoopF (inv : JSPrim → Except JsErr InventoryF) :
    List CartEntry → Dy → Except JsErr Dy × List (CallRec Unit)
  | [], acc => (Except.ok acc, [])
  | item :: rest, acc =>
    let invCall : CallRec Unit :=
      ⟨UpMethod.get, "/api/inventory/" ++ jsToString item.inventory_id,
       none, none⟩
    match inv item.inventory_id with
    | Except.error e => (Except.error e, [invCall])
    | Except.ok r =>
      let next := totalLoopF inv rest
        (fpAdd acc (fpMul r.price (fpOfInt item.quantity)))
      (next.1, invCall :: next.2)

/-- `CartController.getCartTotal` under binary64 semantics: the same
gate, cart fetch, loop and catch as `getCartTotal`, with the total
accumulated in doubles (`let total = 0` is the double zero). -/
def getCartTotalF (δ : Type) (user : Option JSPrim) (pathUserId : String)
    (cartRes : Except JsErr (List CartEntry))
    (inv : JSPrim → Except JsErr InventoryF) :
    Resp δ × List (CallRec Unit) :=
  if !(strictEqIdStr user pathUserId) then
    (unauthorized δ, [])
  else
    let cartCall : CallRec Unit :=
      ⟨UpMethod.get, "/api/cart/" ++ pathUserId, none, none⟩
    match cartRes with
    | Except.error e =>
        (errResp δ e "Error calculating cart total", [cartCall])
    | Except.ok items =>
      match totalLoopF inv items ⟨0, 0⟩ with
      | (Except.error e, calls) =>
          (errResp δ e "Error calculating cart total", cartCall :: calls)
      | (Except.ok t, calls) =>
          (⟨200, RespBody.totalValF t⟩, cartCall :: calls)

/-- The two-product demo inventory under the binary64 model: product 1
costs the double of 5.99, anything else the double of 3.99. -/
def demoInventoryF : JSPrim → InventoryF :=
  fun p => if p == JSPrim.num 1 then ⟨10, dyOfDecimal 599 2⟩
    else ⟨10, dyOfDecimal 399 2⟩

/-- An always-succeeding binary64 oracle answering from
`demoInventoryF`. -/
def demoOracleF : JSPrim → Except JsErr InventoryF :=
  fun p => Except.ok (demoInventoryF p)

/-- An inventory whose product 1 costs 10^16 and every other product 1:
all prices exactly representable doubles, chosen so that the
accumulation order changes the total. -/
def magnitudeInventoryF : JSPrim → InventoryF :=
  fun p => if p == JSPrim.num 1 then ⟨10, dyOfDecimal 10000000000000000 0⟩
    else ⟨10, dyOfDecimal 1 0⟩

/-- An always-succeeding binary64 oracle answering from
`magnitudeInventoryF`. -/
def magnitudeOracleF : JSPrim → Except JsErr InventoryF :=
  fun p => Except.ok (magnitudeInventoryF p)

/-- An inventory where every product costs 0.1 (the double nearest to
1/10), whose triple is not computed exactly by double arithmetic. -/
def tenthOracleF : JSPrim → Except JsErr InventoryF :=
  fun _ => Except.ok ⟨10, dyOfDecimal 1 1⟩

/-- An oracle whose every inventory fetch fails with a 404 response
failure carrying a body message and a raw description. -/
def failRespOracle : JSPrim → Except JsErr Inventory :=
  fun _ => Except.error ⟨some ⟨some 404, some "Not found", none⟩, some "boom"⟩

/-- An oracle whose every inventory fetch fails with a transport
failure (no response, raw description only). -/
def failRawOracle : JSPrim → Except JsErr Inventory :=
  fun _ => Except.error ⟨none, some "Network error"⟩

/-- C1: the spec says a validated add-to-cart request proceeds past the
authorization gate iff `actor.id == parseInt(body.user_id)`.  The code
instead tests `req.user?.id !== req.body.user_id.toString()`, a strict
comparison of a numeric actor id against a string, so an actor whose
integral id does equal `parseInt(body.user_id)` (here both are 7) is
answered 403 `{ message: "Unauthorized" }` with no upstream call —
contradicting the spec and the repository's own test-suite, which
expects the add to proceed. -/
theorem addToCart_gate_rejects_matching_numeric_ids :
    claimedAddGate (some (JSPrim.num 7)) (JSPrim.num 7) = true ∧
    addToCart String [] (some (JSPrim.num 7))
        ⟨JSPrim.num 7, JSPrim.num 3, 2⟩
        (Except.ok ⟨10, 599/100⟩) (Except.ok "created") =
      (unauthorized String, []) := by
  constructor
  · rfl
  · rfl

/-- C2: the spec says getCart, clearCart and getCartTotal proceed past
the gate iff `actor.id.toString() == path.user_id`.  The code tests
`req.user?.id !== req.params.user_id` without `toString`, so a numeric
actor id (here 7, against path `"7"`) is answered 403
`{ message: "Unauthorized" }` with no upstream call on all three
operations, although the claimed rule holds — contradicting the spec and
the repository's own test-suite. -/
theorem pathOwner_gate_rejects_matching_numeric_ids :
    claimedToStringGate (some (JSPrim.num 7)) "7" = true ∧
    getCart String (some (JSPrim.num 7)) "7" (Except.ok "cart") =
      (unauthorized String, []) ∧
    clearCart String (some (JSPrim.num 7)) "7" (Except.ok "cleared") =
      (unauthorized String, []) ∧
    getCartTotal String (some (JSPrim.num 7)) "7" (Except.ok [])
        (fun _ => Except.ok ⟨10, 599/100⟩) =
      (unauthorized String, []) := by
  refine ⟨rfl, rfl, rfl, ?_⟩
  rfl

/-- C3: the spec says updateCart and removeFromCart fetch the cart item
once before the authorization decision and proceed iff
`actor.id.toString() == fetchedItem.user_id.toString()`.  The code does
fetch exactly once first and does answer 403 (not crash) for an absent
actor, but its gate is `req.user?.id !== cartItemResponse.data.user_id.toString()`
without `toString` on the actor side, so a numeric actor id (here 7,
with fetched owner 7) is rejected although the claimed rule holds —
contradicting the spec and the repository's own test-suite. -/
theorem fetchedOwner_gate_rejects_matching_numeric_ids :
    claimedToStringGate (some (JSPrim.num 7)) (jsToString (JSPrim.num 7)) = true ∧
    updateCart String [] (some (JSPrim.num 7)) "5" ⟨3⟩
        (Except.ok ⟨JSPrim.num 7, JSPrim.num 2⟩)
        (Except.ok ⟨10, 599/100⟩) (Except.ok "updated") =
      (unauthorized String,
       [⟨UpMethod.get, "/api/cart/item/5", none, none⟩]) ∧
    removeFromCart String (some (JSPrim.num 7)) "5"
        (Except.ok ⟨JSPrim.num 7, JSPrim.num 2⟩) (Except.ok "removed") =
      (unauthorized String,
       [⟨UpMethod.get, "/api/cart/item/5", none, none⟩]) ∧
    updateCart String [] none "5" ⟨3⟩
        (Except.ok ⟨JSPrim.num 7, JSPrim.num 2⟩)
        (Except.ok ⟨10, 599/100⟩) (Except.ok "updated") =
      (unauthorized String,
       [⟨UpMethod.get, "/api/cart/item/5", none, none⟩]) := by
  refine ⟨rfl, rfl, rfl, rfl⟩

/-- C9: the spec says every outbound upstream call forwards the caller's
bearer token (the incoming `Authorization` header) unchanged.  The code
issues every axios call without any headers configuration, so on a run
of addToCart that reaches both upstream calls, and on a successful
getCart, every recorded call carries no `Authorization` header at all —
contradicting the spec and the repository's own test-suite, which
asserts a config object on every axios call. -/
theorem upstream_calls_carry_no_auth_header :
    ((addToCart String [] (some (JSPrim.str "7"))
        ⟨JSPrim.num 7, JSPrim.num 3, 2⟩
        (Except.ok ⟨10, 599/100⟩) (Except.ok "created")).2.map
      (fun c => c.auth)) = [none, none] ∧
    ((getCart String (some (JSPrim.str "7")) "7" (Except.ok "cart")).2.map
      (fun c => c.auth)) = [none] := by
  exact ⟨rfl, rfl⟩

/-- C7: an addToCart or updateCart request whose payload validation
fails is answered 400 with the full list of field errors and issues zero
upstream calls, whatever the actor, path, body or upstream answers would
have been — validation short-circuits before the authorization check and
before any network I/O. -/
theorem validation_short_circuits (δ : Type) (errors : List String)
    (user : Option JSPrim) (body : AddBody) (pathId : String)
    (ubody : UpdBody) (invRes : Except JsErr Inventory)
    (postRes : Except JsErr δ) (itemRes : Except JsErr CartItem)
    (invRes2 : Except JsErr Inventory) (putRes : Except JsErr δ)
    (herr : errors ≠ []) :
    addToCart δ errors user body invRes postRes =
      (⟨400, RespBody.errorsList errors⟩, []) ∧
    updateCart δ errors user pathId ubody itemRes invRes2 putRes =
      (⟨400, RespBody.errorsList errors⟩, []) := by
  have hne : errors.isEmpty = false := by
    cases errors with
    | nil => exact absurd rfl herr
    | cons a l => rfl
  constructor
  · unfold addToCart
    simp [hne]
  · unfold updateCart
    simp [hne]

/-- Witness for C7 at a concrete failing validation result. -/
theorem validation_short_circuits_witness :
    addToCart String ["Quantity must be at least 1"]
        (some (JSPrim.num 1)) ⟨JSPrim.num 1, JSPrim.num 1, 0⟩
        (Except.ok ⟨10, 599/100⟩) (Except.ok "created") =
      (⟨400, RespBody.errorsList ["Quantity must be at least 1"]⟩, []) ∧
    updateCart String ["Quantity must be at least 1"]
        (some (JSPrim.num 1)) "5" ⟨0⟩
        (Except.ok ⟨JSPrim.num 1, JSPrim.num 2⟩)
        (Except.ok ⟨10, 599/100⟩) (Except.ok "updated") =
      (⟨400, RespBody.errorsList ["Quantity must be at least 1"]⟩, []) :=
  validation_short_circuits String ["Quantity must be at least 1"]
    (some (JSPrim.num 1)) ⟨JSPrim.num 1, JSPrim.num 1, 0⟩ "5" ⟨0⟩
    (Except.ok ⟨10, 599/100⟩) (Except.ok "created")
    (Except.ok ⟨JSPrim.num 1, JSPrim.num 2⟩)
    (Except.ok ⟨10, 599/100⟩) (Except.ok "updated")
    (by decide)

/-- C10: an authorized getCartTotal whose upstream cart fetch succeeds
with an empty item list is answered 200 with `{ total: 0 }`, and the
cart fetch is the only upstream call — no inventory fetch is issued. -/
theorem getCartTotal_empty_cart (δ : Type) (user : Option JSPrim)
    (pathUserId : String) (inv : JSPrim → Except JsErr Inventory)
    (hgate : strictEqIdStr user pathUserId = true) :
    getCartTotal δ user pathUserId (Except.ok []) inv =
      (⟨200, RespBody.totalVal 0⟩,
       [⟨UpMethod.get, "/api/cart/" ++ pathUserId, none, none⟩]) := by
  unfold getCartTotal
  simp [hgate, totalLoop]

/-- Witness for C10 at a concrete authorized request. -/
theorem getCartTotal_empty_cart_witness :
    getCartTotal String (some (JSPrim.str "7")) "7" (Except.ok [])
        (fun _ => Except.ok ⟨10, 599/100⟩) =
      (⟨200, RespBody.totalVal 0⟩,
       [⟨UpMethod.get, "/api/cart/7", none, none⟩]) :=
  getCartTotal_empty_cart String (some (JSPrim.str "7")) "7"
    (fun _ => Except.ok ⟨10, 599/100⟩) (by decide)

/-- C4: on a validated, authorized addToCart or updateCart whose
inventory fetch succeeds: insufficient stock is answered 400
`{ message: "Insufficient stock" }` with no mutating upstream call (the
inventory GET is the only call issued); otherwise exactly one mutating
upstream call is issued, carrying the original request body, and when it
succeeds its response body is returned with 201 (add) or 200
(update). -/
theorem stock_gate_and_single_mutation (δ : Type) (user : Option JSPrim)
    (body : AddBody) (inv : Inventory) (postRes : Except JsErr δ)
    (pathId : String) (ubody : UpdBody) (item : CartItem)
    (inv2 : Inventory) (putRes : Except JsErr δ)
    (hA : strictEqIdStr user (jsToString body.user_id) = true)
    (hU : strictEqIdStr user (jsToString item.user_id) = true) :
    (inv.stockQuantity < body.quantity →
      addToCart δ [] user body (Except.ok inv) postRes =
        (⟨400, RespBody.message "Insufficient stock"⟩,
         [⟨UpMethod.get, "/api/inventory/" ++ jsToString body.inventory_id,
           none, none⟩])) ∧
    (¬ inv.stockQuantity < body.quantity →
      (addToCart δ [] user body (Except.ok inv) postRes).2.filter
          (fun c => c.method.isMutating) =
        [⟨UpMethod.post, "/api/cart/add", some body, none⟩] ∧
      ∀ d, postRes = Except.ok d →
        (addToCart δ [] user body (Except.ok inv) postRes).1 =
          ⟨201, RespBody.payload d⟩) ∧
    (inv2.stockQuantity < ubody.quantity →
      updateCart δ [] user pathId ubody (Except.ok item)
          (Except.ok inv2) putRes =
        (⟨400, RespBody.message "Insufficient stock"⟩,
         [⟨UpMethod.get, "/api/cart/item/" ++ pathId, none, none⟩,
          ⟨UpMethod.get, "/api/inventory/" ++ jsToString item.inventory_id,
           none, none⟩])) ∧
    (¬ inv2.stockQuantity < ubody.quantity →
      (updateCart δ [] user pathId ubody (Except.ok item)
          (Except.ok inv2) putRes).2.filter
          (fun c => c.method.isMutating) =
        [⟨UpMethod.put, "/api/cart/update/" ++ pathId, some ubody, none⟩] ∧
      ∀ d, putRes = Except.ok d →
        (updateCart δ [] user pathId ubody (Except.ok item)
            (Except.ok inv2) putRes).1 =
          ⟨200, RespBody.payload d⟩) := by
  refine ⟨?_, ?_, ?_, ?_⟩
  · intro h
    unfold addToCart
    simp [hA, h]
  · intro h
    constructor
    · unfold addToCart
      cases postRes with
      | error e => simp [hA, h, UpMethod.isMutating]
      | ok d => simp [hA, h, UpMethod.isMutating]
    · intro d hd
      subst hd
      unfold addToCart
      simp [hA, h]
  · intro h
    unfold updateCart
    simp [hU, h]
  · intro h
    constructor
    · unfold updateCart
      cases putRes with
      | error e => simp [hU, h, UpMethod.isMutating]
      | ok d => simp [hU, h, UpMethod.isMutating]
    · intro d hd
      subst hd
      unfold updateCart
      simp [hU, h]

/-- Witness for C4: concrete insufficient and sufficient runs of both
operations. -/
theorem stock_gate_and_single_mutation_witness :
    addToCart String [] (some (JSPrim.str "7")) ⟨JSPrim.num 7, JSPrim.num 3, 5⟩
        (Except.ok ⟨2, 599/100⟩) (Except.ok "created") =
      (⟨400, RespBody.message "Insufficient stock"⟩,
       [⟨UpMethod.get, "/api/inventory/3", none, none⟩]) ∧
    (addToCart String [] (some (JSPrim.str "7")) ⟨JSPrim.num 7, JSPrim.num 3, 2⟩
        (Except.ok ⟨10, 599/100⟩) (Except.ok "created")).2.filter
        (fun c => c.method.isMutating) =
      [⟨UpMethod.post, "/api/cart/add",
        some ⟨JSPrim.num 7, JSPrim.num 3, 2⟩, none⟩] ∧
    (addToCart String [] (some (JSPrim.str "7")) ⟨JSPrim.num 7, JSPrim.num 3, 2⟩
        (Except.ok ⟨10, 599/100⟩) (Except.ok "created")).1 =
      ⟨201, RespBody.payload "created"⟩ ∧
    updateCart String [] (some (JSPrim.str "7")) "5" ⟨3⟩
        (Except.ok ⟨JSPrim.num 7, JSPrim.num 4⟩)
        (Except.ok ⟨2, 599/100⟩) (Except.ok "updated") =
      (⟨400, RespBody.message "Insufficient stock"⟩,
       [⟨UpMethod.get, "/api/cart/item/5", none, none⟩,
        ⟨UpMethod.get, "/api/inventory/4", none, none⟩]) ∧
    (updateCart String [] (some (JSPrim.str "7")) "5" ⟨3⟩
        (Except.ok ⟨JSPrim.num 7, JSPrim.num 4⟩)
        (Except.ok ⟨10, 599/100⟩) (Except.ok "updated")).2.filter
        (fun c => c.method.isMutating) =
      [⟨UpMethod.put, "/api/cart/update/5", some ⟨3⟩, none⟩] ∧
    (updateCart String [] (some (JSPrim.str "7")) "5" ⟨3⟩
        (Except.ok ⟨JSPrim.num 7, JSPrim.num 4⟩)
        (Except.ok ⟨10, 599/100⟩) (Except.ok "updated")).1 =
      ⟨200, RespBody.payload "updated"⟩ := by
  have hlow := stock_gate_and_single_mutation String (some (JSPrim.str "7"))
    ⟨JSPrim.num 7, JSPrim.num 3, 5⟩ ⟨2, 599/100⟩ (Except.ok "created")
    "5" ⟨3⟩ ⟨JSPrim.num 7, JSPrim.num 4⟩ ⟨2, 599/100⟩ (Except.ok "updated")
    (by decide) (by decide)
  have hhigh := stock_gate_and_single_mutation String (some (JSPrim.str "7"))
    ⟨JSPrim.num 7, JSPrim.num 3, 2⟩ ⟨10, 599/100⟩ (Except.ok "created")
    "5" ⟨3⟩ ⟨JSPrim.num 7, JSPrim.num 4⟩ ⟨10, 599/100⟩ (Except.ok "updated")
    (by decide) (by decide)
  exact ⟨hlow.1 (by decide), (hhigh.2.1 (by decide)).1,
    (hhigh.2.1 (by decide)).2 "created" rfl, hlow.2.2.1 (by decide),
    (hhigh.2.2.2 (by decide)).1, (hhigh.2.2.2 (by decide)).2 "updated" rfl⟩

/-- C5 counterexample: under faithful binary64 arithmetic the returned
total is neither exact nor order-independent.  A cart of three items of
quantity 1 at exactly representable prices 10^16, 1, 1 totals 10^16 with
the large price first but 10^16 + 2 with it last; and a single item of
quantity 3 at price 0.1 yields a total different from the exact product
`3 × double(0.1)`. -/
theorem getCartTotal_double_rounding_counterexample :
    (getCartTotalF String (some (JSPrim.str "1")) "1"
        (Except.ok [⟨JSPrim.num 1, 1⟩, ⟨JSPrim.num 2, 1⟩, ⟨JSPrim.num 3, 1⟩])
        magnitudeOracleF).1 =
      ⟨200, RespBody.totalValF ⟨5000000000000000, 1⟩⟩ ∧
    (getCartTotalF String (some (JSPrim.str "1")) "1"
        (Except.ok [⟨JSPrim.num 2, 1⟩, ⟨JSPrim.num 3, 1⟩, ⟨JSPrim.num 1, 1⟩])
        magnitudeOracleF).1 =
      ⟨200, RespBody.totalValF ⟨5000000000000001, 1⟩⟩ ∧
    Dy.veq ⟨5000000000000000, 1⟩ ⟨5000000000000001, 1⟩ = false ∧
    (getCartTotalF String (some (JSPrim.str "1")) "1"
        (Except.ok [⟨JSPrim.num 5, 3⟩]) tenthOracleF).1 =
      ⟨200, RespBody.totalValF ⟨5404319552844596, -54⟩⟩ ∧
    Dy.veq ⟨5404319552844596, -54⟩
      ⟨3 * (dyOfDecimal 1 1).m, (dyOfDecimal 1 1).e⟩ = false := by
  refine ⟨?_, ?_, ?_, ?_, ?_⟩ <;> decide

/-- The binary64 total-computation loop under an always-succeeding
inventory oracle: it folds `acc ↦ fpAdd acc (fpMul price quantity)` over
the items in encounter order, and issues one inventory GET per item. -/
theorem totalLoopF_ok (inv : JSPrim → Except JsErr InventoryF)
    (f : JSPrim → InventoryF) (hf : ∀ p, inv p = Except.ok (f p)) :
    ∀ (l : List CartEntry) (acc : Dy),
      totalLoopF inv l acc =
        (Except.ok (l.foldl (fun a e =>
            fpAdd a (fpMul (f e.inventory_id).price (fpOfInt e.quantity)))
            acc),
         l.map (fun e => (⟨UpMethod.get,
            "/api/inventory/" ++ jsToString e.inventory_id, none, none⟩ :
            CallRec Unit)))
  | [], acc => by simp [totalLoopF]
  | item :: rest, acc => by
      have ih := totalLoopF_ok inv f hf rest
        (fpAdd acc (fpMul (f item.inventory_id).price (fpOfInt item.quantity)))
      simp [totalLoopF, hf item.inventory_id, ih]

/-- C5 amended: an authorized getCartTotal whose upstream fetches all
succeed returns 200 with the IEEE-754 binary64 accumulation, in
encounter order, of `price × quantity` — each product and each running
addition rounded to nearest, ties to even — starting from the double
zero; on the spec's example (prices 5.99 and 3.99, quantities 2 and 1)
every rounding is benign and the total equals the binary64 value of
15.97 in either item order. -/
theorem getCartTotalF_accumulation (δ : Type) (user : Option JSPrim)
    (pathUserId : String) (items : List CartEntry)
    (inv : JSPrim → Except JsErr InventoryF) (f : JSPrim → InventoryF)
    (hgate : strictEqIdStr user pathUserId = true)
    (hf : ∀ p, inv p = Except.ok (f p)) :
    (getCartTotalF δ user pathUserId (Except.ok items) inv).1 =
      ⟨200, RespBody.totalValF (items.foldl (fun a e =>
          fpAdd a (fpMul (f e.inventory_id).price (fpOfInt e.quantity)))
          ⟨0, 0⟩)⟩ ∧
    (getCartTotalF String (some (JSPrim.str "1")) "1"
        (Except.ok [⟨JSPrim.num 1, 2⟩, ⟨JSPrim.num 2, 1⟩]) demoOracleF).1 =
      ⟨200, RespBody.totalValF (dyOfDecimal 1597 2)⟩ ∧
    (getCartTotalF String (some (JSPrim.str "1")) "1"
        (Except.ok [⟨JSPrim.num 2, 1⟩, ⟨JSPrim.num 1, 2⟩]) demoOracleF).1 =
      ⟨200, RespBody.totalValF (dyOfDecimal 1597 2)⟩ := by
  refine ⟨?_, by decide, by decide⟩
  have h := totalLoopF_ok inv f hf items ⟨0, 0⟩
  unfold getCartTotalF
  simp [hgate, h]

/-- Witness for C5 amended: the accumulation equation applied to the
spec's example cart under the demo binary64 oracle. -/
theorem getCartTotalF_accumulation_witness :
    (getCartTotalF String (some (JSPrim.str "1")) "1"
        (Except.ok [⟨JSPrim.num 1, 2⟩, ⟨JSPrim.num 2, 1⟩]) demoOracleF).1 =
      ⟨200, RespBody.totalValF
        (([⟨JSPrim.num 1, 2⟩, ⟨JSPrim.num 2, 1⟩] : List CartEntry).foldl
          (fun a e =>
            fpAdd a (fpMul (demoInventoryF e.inventory_id).price
              (fpOfInt e.quantity))) ⟨0, 0⟩)⟩ :=
  (getCartTotalF_accumulation String (some (JSPrim.str "1")) "1"
    [⟨JSPrim.num 1, 2⟩, ⟨JSPrim.num 2, 1⟩] demoOracleF demoInventoryF
    (by decide) (fun p => rfl)).1

/-- C6 counterexample: an upstream failure carrying a response with
status 404 and message `"Cart not found"` but no `errors` detail, and a
raw failure description, is answered with the raw description in the
`error` field — not with `undefined` as the claim states. -/
theorem errorMapping_error_field_falls_back_to_raw :
    (getCart String (some (JSPrim.str "1")) "1"
        (Except.error ⟨some ⟨some 404, some "Cart not found", none⟩,
                       some "Request failed with status code 404"⟩)).1 =
      ⟨404, RespBody.messageError "Cart not found"
        (some "Request failed with status code 404")⟩ ∧
    (getCart String (some (JSPrim.str "1")) "1"
        (Except.error ⟨some ⟨some 404, some "Cart not found", none⟩,
                       some "Request failed with status code 404"⟩)).1 ≠
      ⟨404, RespBody.messageError "Cart not found" none⟩ := by
  exact ⟨rfl, by decide⟩

/-- C6 amended: for every operation and every upstream call it can
issue — the first fetch, a later fetch, or the mutating call — a failure
carrying a response with a non-zero status and a non-empty body message
is answered with that status and message, the `error` field being the
body's `errors` detail when present and non-empty, otherwise the raw
failure description; a failure without a response is answered 500 with
the operation-specific default message and the raw description. -/
theorem errorMapping_uniform (δ : Type) (user : Option JSPrim)
    (pathUserId pathId : String) (body : AddBody) (ubody : UpdBody)
    (item : CartItem) (stockInv stockInv2 : Inventory)
    (inv invF invF2 : JSPrim → Except JsErr Inventory)
    (postRes putRes delRes : Except JsErr δ)
    (invRes : Except JsErr Inventory)
    (items items2 : List CartEntry)
    (e e2 : JsErr) (r : UpErrResponse) (s : Nat) (m : String)
    (hgate : strictEqIdStr user pathUserId = true)
    (hA : strictEqIdStr user (jsToString body.user_id) = true)
    (hUgate : strictEqIdStr user (jsToString item.user_id) = true)
    (hstA : ¬ stockInv.stockQuantity < body.quantity)
    (hstU : ¬ stockInv2.stockQuantity < ubody.quantity)
    (hr : e.response = some r) (hs : r.status = some s) (hs0 : s ≠ 0)
    (hm : r.dataMessage = some m) (hm0 : m ≠ "")
    (h2 : e2.response = none)
    (hloopE : (totalLoop invF items 0).1 = Except.error e)
    (hloopE2 : (totalLoop invF2 items2 0).1 = Except.error e2) :
    (getCart δ user pathUserId (Except.error e)).1 =
      ⟨s, RespBody.messageError m (jsOr r.dataErrors e.message)⟩ ∧
    (clearCart δ user pathUserId (Except.error e)).1 =
      ⟨s, RespBody.messageError m (jsOr r.dataErrors e.message)⟩ ∧
    (getCartTotal δ user pathUserId (Except.error e) inv).1 =
      ⟨s, RespBody.messageError m (jsOr r.dataErrors e.message)⟩ ∧
    (getCartTotal δ user pathUserId (Except.ok items) invF).1 =
      ⟨s, RespBody.messageError m (jsOr r.dataErrors e.message)⟩ ∧
    (addToCart δ [] user body (Except.error e) postRes).1 =
      ⟨s, RespBody.messageError m (jsOr r.dataErrors e.message)⟩ ∧
    (addToCart δ [] user body (Except.ok stockInv) (Except.error e)).1 =
      ⟨s, RespBody.messageError m (jsOr r.dataErrors e.message)⟩ ∧
    (updateCart δ [] user pathId ubody (Except.error e) invRes putRes).1 =
      ⟨s, RespBody.messageError m (jsOr r.dataErrors e.message)⟩ ∧
    (updateCart δ [] user pathId ubody (Except.ok item) (Except.error e)
        putRes).1 =
      ⟨s, RespBody.messageError m (jsOr r.dataErrors e.message)⟩ ∧
    (updateCart δ [] user pathId ubody (Except.ok item)
        (Except.ok stockInv2) (Except.error e)).1 =
      ⟨s, RespBody.messageError m (jsOr r.dataErrors e.message)⟩ ∧
    (removeFromCart δ user pathId (Except.error e) delRes).1 =
      ⟨s, RespBody.messageError m (jsOr r.dataErrors e.message)⟩ ∧
    (removeFromCart δ user pathId (Except.ok item) (Except.error e)).1 =
      ⟨s, RespBody.messageError m (jsOr r.dataErrors e.message)⟩ ∧
    (getCart δ user pathUserId (Except.error e2)).1 =
      ⟨500, RespBody.messageError "Error getting cart" e2.message⟩ ∧
    (clearCart δ user pathUserId (Except.error e2)).1 =
      ⟨500, RespBody.messageError "Error clearing cart" e2.message⟩ ∧
    (getCartTotal δ user pathUserId (Except.error e2) inv).1 =
      ⟨500, RespBody.messageError "Error calculating cart total" e2.message⟩ ∧
    (getCartTotal δ user pathUserId (Except.ok items2) invF2).1 =
      ⟨500, RespBody.messageError "Error calculating cart total" e2.message⟩ ∧
    (addToCart δ [] user body (Except.error e2) postRes).1 =
      ⟨500, RespBody.messageError "Error adding to cart" e2.message⟩ ∧
    (addToCart δ [] user body (Except.ok stockInv) (Except.error e2)).1 =
      ⟨500, RespBody.messageError "Error adding to cart" e2.message⟩ ∧
    (updateCart δ [] user pathId ubody (Except.error e2) invRes putRes).1 =
      ⟨500, RespBody.messageError "Error updating cart" e2.message⟩ ∧
    (updateCart δ [] user pathId ubody (Except.ok item) (Except.error e2)
        putRes).1 =
      ⟨500, RespBody.messageError "Error updating cart" e2.message⟩ ∧
    (updateCart δ [] user pathId ubody (Except.ok item)
        (Except.ok stockInv2) (Except.error e2)).1 =
      ⟨500, RespBody.messageError "Error updating cart" e2.message⟩ ∧
    (removeFromCart δ user pathId (Except.error e2) delRes).1 =
      ⟨500, RespBody.messageError "Error removing from cart" e2.message⟩ ∧
    (removeFromCart δ user pathId (Except.ok item) (Except.error e2)).1 =
      ⟨500, RespBody.messageError "Error removing from cart" e2.message⟩ := by
  have hkey : ∀ dflt : String, errResp δ e dflt =
      ⟨s, RespBody.messageError m (jsOr r.dataErrors e.message)⟩ := by
    intro dflt
    unfold errResp
    rw [hr]
    simp [Option.bind, hs, hm, jsOrNat, jsOrStr, hs0, hm0]
  have hkey2 : ∀ dflt : String, errResp δ e2 dflt =
      ⟨500, RespBody.messageError dflt e2.message⟩ := by
    intro dflt
    unfold errResp
    rw [h2]
    simp [Option.bind, jsOrNat, jsOrStr, jsOr]
  refine ⟨?_, ?_, ?_, ?_, ?_, ?_, ?_, ?_, ?_, ?_, ?_, ?_, ?_, ?_, ?_,
    ?_, ?_, ?_, ?_, ?_, ?_, ?_⟩
  · unfold getCart; simp [hgate, hkey]
  · unfold clearCart; simp [hgate, hkey]
  · unfold getCartTotal; simp [hgate, hkey]
  · unfold getCartTotal
    rcases hlp : totalLoop invF items 0 with ⟨res, calls⟩
    rw [hlp] at hloopE
    cases res with
    | ok t => simp at hloopE
    | error ee =>
        have hee : ee = e := by simpa using hloopE
        subst hee
        simp [hgate, hlp, hkey]
  · unfold addToCart; simp [hA, hkey]
  · unfold addToCart; simp [hA, hstA, hkey]
  · unfold updateCart; simp [hkey]
  · unfold updateCart; simp [hUgate, hkey]
  · unfold updateCart; simp [hUgate, hstU, hkey]
  · unfold removeFromCart; simp [hkey]
  · unfold removeFromCart; simp [hUgate, hkey]
  · unfold getCart; simp [hgate, hkey2]
  · unfold clearCart; simp [hgate, hkey2]
  · unfold getCartTotal; simp [hgate, hkey2]
  · unfold getCartTotal
    rcases hlp : totalLoop invF2 items2 0 with ⟨res, calls⟩
    rw [hlp] at hloopE2
    cases res with
    | ok t => simp at hloopE2
    | error ee =>
        have hee : ee = e2 := by simpa using hloopE2
        subst hee
        simp [hgate, hlp, hkey2]
  · unfold addToCart; simp [hA, hkey2]
  · unfold addToCart; simp [hA, hstA, hkey2]
  · unfold updateCart; simp [hkey2]
  · unfold updateCart; simp [hUgate, hkey2]
  · unfold updateCart; simp [hUgate, hstU, hkey2]
  · unfold removeFromCart; simp [hkey2]
  · unfold removeFromCart; simp [hUgate, hkey2]

/-- Witness for C6 amended: a 404 with message and no errors detail, and
a transport failure, at every upstream call site of every operation. -/
theorem errorMapping_uniform_witness :
    (getCart String (some (JSPrim.str "7")) "7"
        (Except.error ⟨some ⟨some 404, some "Not found", none⟩,
                       some "boom"⟩)).1 =
      ⟨404, RespBody.messageError "Not found" (some "boom")⟩ ∧
    (clearCart String (some (JSPrim.str "7")) "7"
        (Except.error ⟨some ⟨some 404, some "Not found", none⟩,
                       some "boom"⟩)).1 =
      ⟨404, RespBody.messageError "Not found" (some "boom")⟩ ∧
    (getCartTotal String (some (JSPrim.str "7")) "7"
        (Except.error ⟨some ⟨some 404, some "Not found", none⟩,
                       some "boom"⟩) demoOracle).1 =
      ⟨404, RespBody.messageError "Not found" (some "boom")⟩ ∧
    (getCartTotal String (some (JSPrim.str "7")) "7"
        (Except.ok [⟨JSPrim.num 9, 1⟩]) failRespOracle).1 =
      ⟨404, RespBody.messageError "Not found" (some "boom")⟩ ∧
    (addToCart String [] (some (JSPrim.str "7"))
        ⟨JSPrim.num 7, JSPrim.num 3, 2⟩
        (Except.error ⟨some ⟨some 404, some "Not found", none⟩,
                       some "boom"⟩) (Except.ok "created")).1 =
      ⟨404, RespBody.messageError "Not found" (some "boom")⟩ ∧
    (addToCart String [] (some (JSPrim.str "7"))
        ⟨JSPrim.num 7, JSPrim.num 3, 2⟩ (Except.ok ⟨10, 599/100⟩)
        (Except.error ⟨some ⟨some 404, some "Not found", none⟩,
                       some "boom"⟩)).1 =
      ⟨404, RespBody.messageError "Not found" (some "boom")⟩ ∧
    (updateCart String [] (some (JSPrim.str "7")) "5" ⟨3⟩
        (Except.error ⟨some ⟨some 404, some "Not found", none⟩,
                       some "boom"⟩)
        (Except.ok ⟨10, 599/100⟩) (Except.ok "updated")).1 =
      ⟨404, RespBody.messageError "Not found" (some "boom")⟩ ∧
    (updateCart String [] (some (JSPrim.str "7")) "5" ⟨3⟩
        (Except.ok ⟨JSPrim.num 7, JSPrim.num 4⟩)
        (Except.error ⟨some ⟨some 404, some "Not found", none⟩,
                       some "boom"⟩) (Except.ok "updated")).1 =
      ⟨404, RespBody.messageError "Not found" (some "boom")⟩ ∧
    (updateCart String [] (some (JSPrim.str "7")) "5" ⟨3⟩
        (Except.ok ⟨JSPrim.num 7, JSPrim.num 4⟩)
        (Except.ok ⟨10, 599/100⟩)
        (Except.error ⟨some ⟨some 404, some "Not found", none⟩,
                       some "boom"⟩)).1 =
      ⟨404, RespBody.messageError "Not found" (some "boom")⟩ ∧
    (removeFromCart String (some (JSPrim.str "7")) "5"
        (Except.error ⟨some ⟨some 404, some "Not found", none⟩,
                       some "boom"⟩) (Except.ok "removed")).1 =
      ⟨404, RespBody.messageError "Not found" (some "boom")⟩ ∧
    (removeFromCart String (some (JSPrim.str "7")) "5"
        (Except.ok ⟨JSPrim.num 7, JSPrim.num 4⟩)
        (Except.error ⟨some ⟨some 404, some "Not found", none⟩,
                       some "boom"⟩)).1 =
      ⟨404, RespBody.messageError "Not found" (some "boom")⟩ ∧
    (getCart String (some (JSPrim.str "7")) "7"
        (Except.error ⟨none, some "Network error"⟩)).1 =
      ⟨500, RespBody.messageError "Error getting cart"
        (some "Network error")⟩ ∧
    (clearCart String (some (JSPrim.str "7")) "7"
        (Except.error ⟨none, some "Network error"⟩)).1 =
      ⟨500, RespBody.messageError "Error clearing cart"
        (some "Network error")⟩ ∧
    (getCartTotal String (some (JSPrim.str "7")) "7"
        (Except.error ⟨none, some "Network error"⟩) demoOracle).1 =
      ⟨500, RespBody.messageError "Error calculating cart total"
        (some "Network error")⟩ ∧
    (getCartTotal String (some (JSPrim.str "7")) "7"
        (Except.ok [⟨JSPrim.num 9, 1⟩]) failRawOracle).1 =
      ⟨500, RespBody.messageError "Error calculating cart total"
        (some "Network error")⟩ ∧
    (addToCart String [] (some (JSPrim.str "7"))
        ⟨JSPrim.num 7, JSPrim.num 3, 2⟩
        (Except.error ⟨none, some "Network error"⟩)
        (Except.ok "created")).1 =
      ⟨500, RespBody.messageError "Error adding to cart"
        (some "Network error")⟩ ∧
    (addToCart String [] (some (JSPrim.str "7"))
        ⟨JSPrim.num 7, JSPrim.num 3, 2⟩ (Except.ok ⟨10, 599/100⟩)
        (Except.error ⟨none, some "Network error"⟩)).1 =
      ⟨500, RespBody.messageError "Error adding to cart"
        (some "Network error")⟩ ∧
    (updateCart String [] (some (JSPrim.str "7")) "5" ⟨3⟩
        (Except.error ⟨none, some "Network error"⟩)
        (Except.ok ⟨10, 599/100⟩) (Except.ok "updated")).1 =
      ⟨500, RespBody.messageError "Error updating cart"
        (some "Network error")⟩ ∧
    (updateCart String [] (some (JSPrim.str "7")) "5" ⟨3⟩
        (Except.ok ⟨JSPrim.num 7, JSPrim.num 4⟩)
        (Except.error ⟨none, some "Network error"⟩)
        (Except.ok "updated")).1 =
      ⟨500, RespBody.messageError "Error updating cart"
        (some "Network error")⟩ ∧
    (updateCart String [] (some (JSPrim.str "7")) "5" ⟨3⟩
        (Except.ok ⟨JSPrim.num 7, JSPrim.num 4⟩)
        (Except.ok ⟨10, 599/100⟩)
        (Except.error ⟨none, some "Network error"⟩)).1 =
      ⟨500, RespBody.messageError "Error updating cart"
        (some "Network error")⟩ ∧
    (removeFromCart String (some (JSPrim.str "7")) "5"
        (Except.error ⟨none, some "Network error"⟩)
        (Except.ok "removed")).1 =
      ⟨500, RespBody.messageError "Error removing from cart"
        (some "Network error")⟩ ∧
    (removeFromCart String (some (JSPrim.str "7")) "5"
        (Except.ok ⟨JSPrim.num 7, JSPrim.num 4⟩)
        (Except.error ⟨none, some "Network error"⟩)).1 =
      ⟨500, RespBody.messageError "Error removing from cart"
        (some "Network error")⟩ :=
  errorMapping_uniform String (some (JSPrim.str "7")) "7" "5"
    ⟨JSPrim.num 7, JSPrim.num 3, 2⟩ ⟨3⟩ ⟨JSPrim.num 7, JSPrim.num 4⟩
    ⟨10, 599/100⟩ ⟨10, 599/100⟩
    demoOracle failRespOracle failRawOracle
    (Except.ok "created") (Except.ok "updated") (Except.ok "removed")
    (Except.ok ⟨10, 599/100⟩)
    [⟨JSPrim.num 9, 1⟩] [⟨JSPrim.num 9, 1⟩]
    ⟨some ⟨some 404, some "Not found", none⟩, some "boom"⟩
    ⟨none, some "Network error"⟩
    ⟨some 404, some "Not found", none⟩ 404 "Not found"
    (by decide) (by decide) (by decide) (by decide) (by decide)
    rfl rfl (by decide) rfl (by decide) rfl rfl rfl

/-- C8 counterexample: a failed payload validation is answered with the
body `{ errors: [...] }`, which carries no `message` field — the claim
that every failure body has at least a `message` field is false on the
validation path. -/
theorem validation_failure_body_lacks_message :
    (addToCart String ["user_id must be a positive integer"] none
        ⟨JSPrim.num 1, JSPrim.num 1, 1⟩ (Except.ok ⟨10, 599/100⟩)
        (Except.ok "created")).1 =
      ⟨400, RespBody.errorsList ["user_id must be a positive integer"]⟩ ∧
    (addToCart String ["user_id must be a positive integer"] none
        ⟨JSPrim.num 1, JSPrim.num 1, 1⟩ (Except.ok ⟨10, 599/100⟩)
        (Except.ok "created")).1.body.hasMessageField = false := by
  exact ⟨rfl, rfl⟩

/-- The uniform catch-block response always carries a `message`
field. -/
theorem errResp_hasMessage (δ : Type) (e : JsErr) (d : String) :
    (errResp δ e d).body.hasMessageField = true := rfl

/-- C8 amended: every response of every operation either is a success
payload/total, or its body carries a `message` field, or it is the 400
`errors`-list response to a failed payload validation — so every failure
path other than validation failure yields a body with at least a
`message` field. -/
theorem failures_carry_message_except_validation (δ : Type)
    (errors : List String) (user : Option JSPrim) (body : AddBody)
    (pathUserId pathId : String) (ubody : UpdBody)
    (invRes invRes2 : Except JsErr Inventory)
    (postRes cartRes putRes delRes clrRes : Except JsErr δ)
    (itemRes itemRes2 : Except JsErr CartItem)
    (cartListRes : Except JsErr (List CartEntry))
    (inv : JSPrim → Except JsErr Inventory) :
    ((addToCart δ errors user body invRes postRes).1.body.hasMessageField
        = true ∨
      (∃ d, (addToCart δ errors user body invRes postRes).1 =
        ⟨201, RespBody.payload d⟩) ∨
      ((addToCart δ errors user body invRes postRes).1 =
        ⟨400, RespBody.errorsList errors⟩ ∧ errors ≠ [])) ∧
    ((getCart δ user pathUserId cartRes).1.body.hasMessageField = true ∨
      (∃ d, (getCart δ user pathUserId cartRes).1 =
        ⟨200, RespBody.payload d⟩)) ∧
    ((updateCart δ errors user pathId ubody itemRes invRes2
          putRes).1.body.hasMessageField = true ∨
      (∃ d, (updateCart δ errors user pathId ubody itemRes invRes2
          putRes).1 = ⟨200, RespBody.payload d⟩) ∨
      ((updateCart δ errors user pathId ubody itemRes invRes2 putRes).1 =
        ⟨400, RespBody.errorsList errors⟩ ∧ errors ≠ [])) ∧
    ((removeFromCart δ user pathId itemRes2 delRes).1.body.hasMessageField
        = true ∨
      (∃ d, (removeFromCart δ user pathId itemRes2 delRes).1 =
        ⟨200, RespBody.payload d⟩)) ∧
    (clearCart δ user pathUserId clrRes).1.body.hasMessageField = true ∧
    ((getCartTotal δ user pathUserId cartListRes inv).1.body.hasMessageField
        = true ∨
      (∃ t, (getCartTotal δ user pathUserId cartListRes inv).1 =
        ⟨200, RespBody.totalVal t⟩)) := by
  refine ⟨?_, ?_, ?_, ?_, ?_, ?_⟩
  · unfold addToCart
    cases herr : errors.isEmpty with
    | false =>
        refine Or.inr (Or.inr ⟨by simp [herr], ?_⟩)
        intro hnil
        rw [hnil] at herr
        exact absurd herr (by simp)
    | true =>
        cases hgate : strictEqIdStr user (jsToString body.user_id) with
        | false =>
            exact Or.inl (by
              simp [herr, hgate, unauthorized, RespBody.hasMessageField])
        | true =>
            cases invRes with
            | error e =>
                exact Or.inl (by
                  simp [herr, hgate, errResp_hasMessage])
            | ok i =>
                by_cases hq : i.stockQuantity < body.quantity
                · exact Or.inl (by
                    simp [herr, hgate, hq, RespBody.hasMessageField])
                · cases postRes with
                  | error e =>
                      exact Or.inl (by
                        simp [herr, hgate, hq, errResp_hasMessage])
                  | ok d =>
                      exact Or.inr (Or.inl ⟨d, by
                        simp [herr, hgate, hq]⟩)
  · unfold getCart
    cases hgate : strictEqIdStr user pathUserId with
    | false =>
        exact Or.inl (by
          simp [hgate, unauthorized, RespBody.hasMessageField])
    | true =>
        cases cartRes with
        | error e => exact Or.inl (by simp [hgate, errResp_hasMessage])
        | ok d => exact Or.inr ⟨d, by simp [hgate]⟩
  · unfold updateCart
    cases herr : errors.isEmpty with
    | false =>
        refine Or.inr (Or.inr ⟨by simp [herr], ?_⟩)
        intro hnil
        rw [hnil] at herr
        exact absurd herr (by simp)
    | true =>
        cases itemRes with
        | error e => exact Or.inl (by simp [herr, errResp_hasMessage])
        | ok item =>
            cases hgate : strictEqIdStr user (jsToString item.user_id) with
            | false =>
                exact Or.inl (by
                  simp [herr, hgate, unauthorized, RespBody.hasMessageField])
            | true =>
                cases invRes2 with
                | error e =>
                    exact Or.inl (by
                      simp [herr, hgate, errResp_hasMessage])
                | ok i =>
                    by_cases hq : i.stockQuantity < ubody.quantity
                    · exact Or.inl (by
                        simp [herr, hgate, hq, RespBody.hasMessageField])
                    · cases putRes with
                      | error e =>
                          exact Or.inl (by
                            simp [herr, hgate, hq, errResp_hasMessage])
                      | ok d =>
                          exact Or.inr (Or.inl ⟨d, by
                            simp [herr, hgate, hq]⟩)
  · unfold removeFromCart
    cases itemRes2 with
    | error e => exact Or.inl (by simp [errResp_hasMessage])
    | ok item =>
        cases hgate : strictEqIdStr user (jsToString item.user_id) with
        | false =>
            exact Or.inl (by
              simp [hgate, unauthorized, RespBody.hasMessageField])
        | true =>
            cases delRes with
            | error e => exact Or.inl (by simp [hgate, errResp_hasMessage])
            | ok d => exact Or.inr ⟨d, by simp [hgate]⟩
  · unfold clearCart
    cases hgate : strictEqIdStr user pathUserId with
    | false =>
        simp [hgate, unauthorized, RespBody.hasMessageField]
    | true =>
        cases clrRes with
        | error e => simp [hgate, errResp_hasMessage]
        | ok d => simp [hgate, RespBody.hasMessageField]
  · unfold getCartTotal
    cases hgate : strictEqIdStr user pathUserId with
    | false =>
        exact Or.inl (by
          simp [hgate, unauthorized, RespBody.hasMessageField])
    | true =>
        cases cartListRes with
        | error e => exact Or.inl (by simp [hgate, errResp_hasMessage])
        | ok items =>
            cases hloop : totalLoop inv items 0 with
            | mk res calls =>
                cases res with
                | error e =>
                    exact Or.inl (by
                      simp [hgate, hloop, errResp_hasMessage])
                | ok t =>
                    exact Or.inr ⟨t, by simp [hgate, hloop]⟩

end BreweryCart
